import Mathlib

/-!
Shallow embedding of the SomDev Solutions backend (src/main.py, src/schemas.py):
data model, catalog seeder, catalog readers, interaction recorder and the
analytics aggregation endpoint, together with proofs of the specified
properties.  The document store is modelled as in-memory lists per collection
with a fresh-identifier counter; MongoDB primitives (count_documents,
insert_one, find().sort, aggregate with match/group/sort) are embedded by
their documented semantics.
-/

namespace SomDev

/-- Interaction type enum: `Literal["view", "order"]` in `schemas.py`. -/
inductive IType where
  | view
  | order
deriving DecidableEq, Repr

/-- Payload fields of a Service document (`Service` in schemas.py). -/
structure ServiceData where
  title : String
  description : String
  icon : Option String := none
  price_from : Option ℚ := none
  category : Option String := none
  cta_label : Option String := some "Order Now"
deriving DecidableEq, Repr

/-- A stored Service document: payload plus the store-assigned identifier
(the stringified `_id`). -/
structure ServiceDoc extends ServiceData where
  oid : String
deriving DecidableEq, Repr

/-- Payload fields of a Project document (`Project` in schemas.py). -/
structure ProjectData where
  title : String
  description : String
  image : Option String := none
  tags : List String := []
deriving DecidableEq, Repr

/-- A stored Project document. -/
structure ProjectDoc extends ProjectData where
  oid : String
deriving DecidableEq, Repr

/-- Payload fields of an Interaction document (`Interaction` in schemas.py).
`service_id := none` models an absent or null field; note that the schema
accepts the empty string as a present value, distinct from absence. -/
structure InteractionData where
  user_id : String
  service_id : Option String := none
  type : IType
  details : List (String × String) := []
deriving DecidableEq, Repr

/-- A stored Interaction document. -/
structure InteractionDoc extends InteractionData where
  oid : String
deriving DecidableEq, Repr

/-- The document store: one list per collection used by the endpoints under
verification, plus a counter from which fresh identifiers are minted. -/
structure DB where
  service : List ServiceDoc := []
  project : List ProjectDoc := []
  interaction : List InteractionDoc := []
  nextId : Nat := 0
deriving DecidableEq, Repr

/-- The empty store. -/
def emptyDB : DB := {}

/-- Stringified store-assigned identifier (stands for `str(_id)`); a real
ObjectId string is never the literal `"unknown"` nor empty, and distinct
inserts get distinct identifiers. -/
def freshOid (n : Nat) : String := "id" ++ Nat.repr n

/-- `db["service"].insert_one(doc)`: append one document with a fresh
identifier; return the identifier and the updated store. -/
def DB.insertService (db : DB) (s : ServiceData) : String × DB :=
  (freshOid db.nextId,
    { db with
        service := db.service ++ [{ toServiceData := s, oid := freshOid db.nextId }]
        nextId := db.nextId + 1 })

/-- `db["project"].insert_one(doc)`. -/
def DB.insertProject (db : DB) (p : ProjectData) : String × DB :=
  (freshOid db.nextId,
    { db with
        project := db.project ++ [{ toProjectData := p, oid := freshOid db.nextId }]
        nextId := db.nextId + 1 })

/-- `db["interaction"].insert_one(doc)`. -/
def DB.insertInteraction (db : DB) (i : InteractionData) : String × DB :=
  (freshOid db.nextId,
    { db with
        interaction := db.interaction ++ [{ toInteractionData := i, oid := freshOid db.nextId }]
        nextId := db.nextId + 1 })

/-- The hardcoded default services seeded by `ensure_seed_data`
(main.py lines 40-73), in index order. -/
def default_services : List ServiceData :=
  [ { title := "Custom Web Apps"
      description := "High-performance, scalable web applications tailored to your business."
      icon := some "Globe"
      price_from := some 4999
      category := some "Development"
      cta_label := some "Start Your Project" },
    { title := "AI Integrations"
      description := "Integrate AI chat, search and automation into your products."
      icon := some "Bot"
      price_from := some 2999
      category := some "AI"
      cta_label := some "Discuss AI" },
    { title := "Cloud & DevOps"
      description := "Secure, automated, and cost-optimized cloud infrastructure."
      icon := some "Cloud"
      price_from := some 1999
      category := some "Cloud"
      cta_label := some "Optimize Stack" },
    { title := "UI/UX Design"
      description := "Premium, accessible, conversion-focused design systems."
      icon := some "Palette"
      price_from := some 1499
      category := some "Design"
      cta_label := some "Design My UI" } ]

/-- The hardcoded default projects seeded by `ensure_seed_data`
(main.py lines 79-98), in index order. -/
def default_projects : List ProjectData :=
  [ { title := "FinTech Analytics Suite"
      description := "A real-time dashboard for risk analytics with ML-driven insights."
      image := some "https://images.unsplash.com/photo-1551281044-8b59f0209686?w=1200&q=80&auto=format&fit=crop"
      tags := ["React", "FastAPI", "Kafka", "Postgres"] },
    { title := "E-commerce Headless Storefront"
      description := "Lightning-fast storefront with personalized search and A/B testing."
      image := some "https://images.unsplash.com/photo-1519337265831-281ec6cc8514?w=1200&q=80&auto=format&fit=crop"
      tags := ["Next.js", "Stripe", "Algolia"] },
    { title := "Healthcare Telemedicine Platform"
      description := "HIPAA-ready video consultations with smart triage chatbot."
      image := some "https://images.unsplash.com/photo-1494390248081-4e521a5940db?w=1200&q=80&auto=format&fit=crop"
      tags := ["WebRTC", "AI", "MongoDB"] } ]

/-- Fold a list of service payloads into the store, one `insert_one` each
(the loop at main.py lines 74-75). -/
def insertServices (l : List ServiceData) (db : DB) : DB :=
  l.foldl (fun d s => (d.insertService s).2) db

/-- Fold a list of project payloads into the store (main.py lines 99-100). -/
def insertProjects (l : List ProjectData) (db : DB) : DB :=
  l.foldl (fun d p => (d.insertProject p).2) db

/-- First half of `ensure_seed_data` (main.py lines 39-75): if
`db["service"].count_documents({}) == 0`, insert the default services in
index order. -/
def seedServices (db : DB) : DB :=
  if db.service.length = 0 then insertServices default_services db else db

/-- Second half of `ensure_seed_data` (main.py lines 78-100): if
`db["project"].count_documents({}) == 0`, insert the default projects in
index order. -/
def seedProjects (db : DB) : DB :=
  if db.project.length = 0 then insertProjects default_projects db else db

/-- `ensure_seed_data` (main.py lines 34-100) on an available store: seed the
service collection if empty, then the project collection if empty. -/
def ensure_seed_data (db : DB) : DB :=
  seedProjects (seedServices db)

/-- Ascending title order on service documents: the `.sort("title")` of
`list_services`. -/
def svcLE (a b : ServiceDoc) : Prop := a.title ≤ b.title

instance : DecidableRel svcLE := fun a b => inferInstanceAs (Decidable (a.title ≤ b.title))

instance : IsTotal ServiceDoc svcLE := ⟨fun a b => le_total a.title b.title⟩

instance : IsTrans ServiceDoc svcLE := ⟨fun _ _ _ h h2 => le_trans h h2⟩

/-- Ascending title order on project documents: the `.sort("title")` of
`list_projects`. -/
def prjLE (a b : ProjectDoc) : Prop := a.title ≤ b.title

instance : DecidableRel prjLE := fun a b => inferInstanceAs (Decidable (a.title ≤ b.title))

instance : IsTotal ProjectDoc prjLE := ⟨fun a b => le_total a.title b.title⟩

instance : IsTrans ProjectDoc prjLE := ⟨fun _ _ _ h h2 => le_trans h h2⟩

/-- `GET /api/services` (main.py lines 118-122): seed, then return every
service document sorted by title ascending.  The pair is (response body,
store after the request). -/
def list_services (db : DB) : List ServiceDoc × DB :=
  let db1 := ensure_seed_data db
  (List.insertionSort svcLE db1.service, db1)

/-- `GET /api/projects` (main.py lines 125-129). -/
def list_projects (db : DB) : List ProjectDoc × DB :=
  let db1 := ensure_seed_data db
  (List.insertionSort prjLE db1.project, db1)

/-- The `$group` key of the aggregation (main.py line 161): the pair of the
`service_id` field (absent/null collapsing to `none`) and the `type` field. -/
def keyOf (i : InteractionDoc) : Option String × IType := (i.service_id, i.type)

/-- The `$match` stage built at main.py lines 150-159.  A `type` filter, when
present, keeps exactly the interactions of that type.  A `service_id` filter
is only installed when the parameter is truthy in Python, so the empty string
imposes no constraint; a non-empty string keeps exactly the interactions
whose `service_id` field equals it. -/
def matchPred (t : Option IType) (sid : Option String) (i : InteractionDoc) : Bool :=
  (match t with
    | none => true
    | some t0 => decide (i.type = t0))
  && (match sid with
    | none => true
    | some s => if s = "" then true else decide (i.service_id = some s))

/-- The `$group` stage with `count: {$sum: 1}` (main.py line 161): one bucket
per distinct key occurring in the list, counting its occurrences.  The order
in which the store emits buckets is unspecified; this embedding picks the
order of `List.dedup`. -/
def groupCounts (l : List InteractionDoc) : List ((Option String × IType) × Nat) :=
  ((l.map keyOf).dedup).map
    (fun k => (k, (l.filter (fun i => decide (keyOf i = k))).length))

/-- Count-descending order on buckets: the `$sort: {count: -1}` stage
(main.py line 162). -/
def cntGE (a b : (Option String × IType) × Nat) : Prop := b.2 ≤ a.2

instance : DecidableRel cntGE := fun a b => inferInstanceAs (Decidable (b.2 ≤ a.2))

instance : IsTotal ((Option String × IType) × Nat) cntGE := ⟨fun a b => le_total b.2 a.2⟩

instance : IsTrans ((Option String × IType) × Nat) cntGE := ⟨fun _ _ _ h h2 => le_trans h2 h⟩

/-- The in-memory id-to-title map built at main.py line 166 from
`db["service"].find({}, {"title": 1})`. -/
def servicesMap (db : DB) : List (String × String) :=
  db.service.map (fun s => (s.oid, s.title))

/-- Python dict lookup `m.get(k)` on an association list built left to right
(a later binding of the same key overwrites an earlier one). -/
def dictGet (m : List (String × String)) (k : String) : Option String :=
  (m.reverse.find? (fun p => p.1 == k)).map (fun p => p.2)

/-- One record of the analytics response body (main.py lines 170-175). -/
structure AnalyticsRow where
  service_id : String
  service_title : String
  type : IType
  count : Nat
deriving DecidableEq, Repr

/-- `sid = row["_id"].get("service_id") or "unknown"` (main.py line 169):
an absent field and every falsy value (in particular the empty string)
collapse to the sentinel `"unknown"`. -/
def coalesceSid : Option String → String
  | none => "unknown"
  | some s => if s = "" then "unknown" else s

/-- `services_map.get(sid, "(General)" if sid == "unknown" else "Unknown")`
(main.py line 172). -/
def titleFor (smap : List (String × String)) (sid : String) : String :=
  match dictGet smap sid with
  | some ttl => ttl
  | none => if sid = "unknown" then "(General)" else "Unknown"

/-- The join/labeling step for one bucket (main.py lines 168-175). -/
def labelRow (smap : List (String × String)) (g : (Option String × IType) × Nat) :
    AnalyticsRow :=
  { service_id := coalesceSid g.1.1
    service_title := titleFor smap (coalesceSid g.1.1)
    type := g.1.2
    count := g.2 }

/-- The analytics core (spec section 4.3, main.py lines 149-176): filter,
group, sort by count descending, then label each bucket against the service
map of the same store. -/
def computeAnalytics (t : Option IType) (sid : Option String) (db : DB) :
    List AnalyticsRow :=
  let filtered := db.interaction.filter (matchPred t sid)
  let sorted := List.insertionSort cntGE (groupCounts filtered)
  sorted.map (labelRow (servicesMap db))

/-- Validation of the `type` query parameter.  The handler declares it as
`Optional[Literal["view", "order"]]`; the web framework checks the literal
before the handler body runs and rejects any other value with an HTTP 422
response (request validation error), so no store operation happens on an
invalid value. -/
def parseTypeParam : Option String → Except Nat (Option IType)
  | none => Except.ok none
  | some s =>
      if s = "view" then Except.ok (some IType.view)
      else if s = "order" then Except.ok (some IType.order)
      else Except.error 422

/-- `GET /api/analytics` (main.py lines 143-176): validate the `type`
parameter, seed, aggregate.  On success the pair is (response rows, store
after the request); on validation failure the store is untouched. -/
def analytics (typeRaw sidRaw : Option String) (db : DB) :
    Except Nat (List AnalyticsRow × DB) :=
  match parseTypeParam typeRaw with
  | Except.error e => Except.error e
  | Except.ok t =>
      let db1 := ensure_seed_data db
      Except.ok (computeAnalytics t sidRaw db1, db1)

/-- A raw `/api/track` request body before validation: each schema field is
either present with a value or absent.  (A JSON null for `service_id` is the
same as absence for the pydantic model.) -/
structure RawInteraction where
  user_id : Option String := none
  service_id : Option String := none
  typeField : Option String := none
  details : List (String × String) := []
deriving DecidableEq, Repr

/-- Pydantic validation of the `Interaction` model (schemas.py lines 35-42):
`user_id` and `type` are required, `type` must be `view` or `order`;
`service_id` and `details` are optional.  Failure is a validation error,
surfaced by the framework as HTTP 422 before the handler body runs. -/
def parseInteraction (r : RawInteraction) : Except Nat InteractionData :=
  match r.user_id, r.typeField with
  | some u, some t =>
      if t = "view" then
        Except.ok { user_id := u, service_id := r.service_id, type := IType.view,
                    details := r.details }
      else if t = "order" then
        Except.ok { user_id := u, service_id := r.service_id, type := IType.order,
                    details := r.details }
      else Except.error 422
  | _, _ => Except.error 422

/-- Modelled from the spec: `create_document` is imported from `database.py`,
which is not among the sources; per the store contract of spec section 6,
`insertOne(collection, doc)` appends one document to the named collection
with a fresh store-assigned identifier and returns that identifier. -/
def create_document (p : InteractionData) (db : DB) : String × DB :=
  db.insertInteraction p

/-- `POST /api/track` (main.py lines 136-140): validate the payload, then
seed and insert exactly one interaction document, returning its identifier.
The pair is (response, store after the request); on validation failure the
store is returned unchanged because the handler body never runs. -/
def track_interaction (r : RawInteraction) (db : DB) : Except Nat String × DB :=
  match parseInteraction r with
  | Except.error e => (Except.error e, db)
  | Except.ok p =>
      let db1 := ensure_seed_data db
      let res := create_document p db1
      (Except.ok res.1, res.2)

instance {ε α : Type} [DecidableEq ε] [DecidableEq α] : DecidableEq (Except ε α)
  | Except.error e1, Except.error e2 =>
      if h : e1 = e2 then Decidable.isTrue (congrArg Except.error h)
      else Decidable.isFalse (fun hc => h (Except.error.inj hc))
  | Except.error _, Except.ok _ => Decidable.isFalse (fun hc => Except.noConfusion hc)
  | Except.ok _, Except.error _ => Decidable.isFalse (fun hc => Except.noConfusion hc)
  | Except.ok v1, Except.ok v2 =>
      if h : v1 = v2 then Decidable.isTrue (congrArg Except.ok h)
      else Decidable.isFalse (fun hc => h (Except.ok.inj hc))

/-- `ensure_seed_data` against a store that may be unavailable: when the
store is down its first operation raises, so the whole call raises
(modelled as `Except.error ()`); when it is up the call behaves as the pure
seeder. -/
def ensure_seed_dataE (avail : Bool) (db : DB) : Except Unit DB :=
  if avail then Except.ok (ensure_seed_data db) else Except.error ()

/-- The `startup` hook (main.py lines 103-108): `ensure_seed_data()` inside
`try/except Exception: pass`, so a store failure is swallowed and the store
is left as it was. -/
def on_startup (avail : Bool) (db : DB) : DB :=
  match ensure_seed_dataE avail db with
  | Except.ok db1 => db1
  | Except.error _ => db

/-- `GET /api/services` with per-step store availability: the handler calls
`ensure_seed_data()` with no exception handler (main.py line 120), so an
error raised there propagates and fails the request even when the store has
recovered by the time of the `find` (availSeed is the store state during the
seeding step, availMain during the handler's own read). -/
def list_servicesE (availSeed availMain : Bool) (db : DB) :
    Except Unit (List ServiceDoc × DB) :=
  match ensure_seed_dataE availSeed db with
  | Except.error e => Except.error e
  | Except.ok db1 =>
      if availMain then Except.ok (List.insertionSort svcLE db1.service, db1)
      else Except.error ()

/-- `POST /api/track` with per-step store availability: the bare
`ensure_seed_data()` call at main.py line 138 propagates a seeding failure. -/
def track_interactionE (availSeed availMain : Bool) (r : RawInteraction) (db : DB) :
    Except Unit (Except Nat String × DB) :=
  match parseInteraction r with
  | Except.error e => Except.ok (Except.error e, db)
  | Except.ok p =>
      match ensure_seed_dataE availSeed db with
      | Except.error e => Except.error e
      | Except.ok db1 =>
          if availMain then
            Except.ok (Except.ok (create_document p db1).1, (create_document p db1).2)
          else Except.error ()

/-! Concrete sample data used to instantiate the theorems below. -/

/-- A stored service with a known identifier and title. -/
def svcW : ServiceDoc := { title := "Custom Web Apps", description := "demo", oid := "id0" }

/-- A stored interaction document built from its four relevant fields. -/
def mkI (u : String) (s : Option String) (t : IType) (n : Nat) : InteractionDoc :=
  { user_id := u, service_id := s, type := t, oid := freshOid n }

/-- A sample store: one service and six interactions covering a resolvable
reference, an absent `service_id`, a dangling reference and an empty-string
`service_id`. -/
def dbW : DB :=
  { service := [svcW]
    interaction := [mkI "u1" (some "id0") IType.view 1, mkI "u2" (some "id0") IType.view 2,
                    mkI "u3" (some "id0") IType.order 3, mkI "u4" none IType.view 4,
                    mkI "u5" (some "zzz") IType.order 5, mkI "u6" (some "") IType.view 6]
    nextId := 9 }

/-- The bucket of the two views of service `"id0"` in `dbW`, as labelled by
the analytics endpoint. -/
def rowW : AnalyticsRow :=
  { service_id := "id0", service_title := "Custom Web Apps", type := IType.view, count := 2 }

/-- The group key of the empty-string `service_id` view interaction of `dbW`. -/
def gW : (Option String × IType) × Nat := ((some "", IType.view), 1)

/-- A valid `/api/track` payload. -/
def rGood : RawInteraction := { user_id := some "u1", typeField := some "view" }

/-- An `/api/track` payload with a `type` outside the enum. -/
def rBad : RawInteraction := { user_id := some "u1", typeField := some "invalid" }

/-- The parsed form of `rGood`. -/
def pGood : InteractionData := { user_id := "u1", type := IType.view }

/-! Structural lemmas about seeding. -/

theorem insertServices_interaction (l : List ServiceData) (db : DB) :
    (insertServices l db).interaction = db.interaction := by
  induction l generalizing db with
  | nil => rfl
  | cons s t ih => exact ih ((db.insertService s).2)

theorem insertServices_project (l : List ServiceData) (db : DB) :
    (insertServices l db).project = db.project := by
  induction l generalizing db with
  | nil => rfl
  | cons s t ih => exact ih ((db.insertService s).2)

theorem insertProjects_interaction (l : List ProjectData) (db : DB) :
    (insertProjects l db).interaction = db.interaction := by
  induction l generalizing db with
  | nil => rfl
  | cons p t ih => exact ih ((db.insertProject p).2)

theorem insertProjects_service (l : List ProjectData) (db : DB) :
    (insertProjects l db).service = db.service := by
  induction l generalizing db with
  | nil => rfl
  | cons p t ih => exact ih ((db.insertProject p).2)

theorem insertServices_service_data (l : List ServiceData) (db : DB) :
    (insertServices l db).service.map (fun s => s.toServiceData)
      = db.service.map (fun s => s.toServiceData) ++ l := by
  induction l generalizing db with
  | nil => simp [insertServices]
  | cons s t ih =>
      have h := ih ((db.insertService s).2)
      have h2 : ((db.insertService s).2).service.map (fun x => x.toServiceData)
          = db.service.map (fun x => x.toServiceData) ++ [s] := by
        simp [DB.insertService]
      rw [show insertServices (s :: t) db = insertServices t ((db.insertService s).2) from rfl,
        h, h2, List.append_assoc]
      rfl

theorem insertProjects_project_data (l : List ProjectData) (db : DB) :
    (insertProjects l db).project.map (fun p => p.toProjectData)
      = db.project.map (fun p => p.toProjectData) ++ l := by
  induction l generalizing db with
  | nil => simp [insertProjects]
  | cons p t ih =>
      have h := ih ((db.insertProject p).2)
      have h2 : ((db.insertProject p).2).project.map (fun x => x.toProjectData)
          = db.project.map (fun x => x.toProjectData) ++ [p] := by
        simp [DB.insertProject]
      rw [show insertProjects (p :: t) db = insertProjects t ((db.insertProject p).2) from rfl,
        h, h2, List.append_assoc]
      rfl

theorem insertServices_service_length (l : List ServiceData) (db : DB) :
    (insertServices l db).service.length = db.service.length + l.length := by
  have h := congrArg List.length (insertServices_service_data l db)
  simpa using h

theorem insertProjects_project_length (l : List ProjectData) (db : DB) :
    (insertProjects l db).project.length = db.project.length + l.length := by
  have h := congrArg List.length (insertProjects_project_data l db)
  simpa using h

theorem seedServices_interaction (db : DB) :
    (seedServices db).interaction = db.interaction := by
  unfold seedServices
  split
  · exact insertServices_interaction ..
  · rfl

theorem seedServices_project (db : DB) : (seedServices db).project = db.project := by
  unfold seedServices
  split
  · exact insertServices_project ..
  · rfl

theorem seedProjects_interaction (db : DB) :
    (seedProjects db).interaction = db.interaction := by
  unfold seedProjects
  split
  · exact insertProjects_interaction ..
  · rfl

theorem seedProjects_service (db : DB) : (seedProjects db).service = db.service := by
  unfold seedProjects
  split
  · exact insertProjects_service ..
  · rfl

theorem ensure_seed_data_interaction (db : DB) :
    (ensure_seed_data db).interaction = db.interaction := by
  unfold ensure_seed_data
  rw [seedProjects_interaction, seedServices_interaction]

theorem ensure_seed_data_service (db : DB) :
    (ensure_seed_data db).service = (seedServices db).service := by
  unfold ensure_seed_data
  rw [seedProjects_service]

theorem ensure_seed_data_project (db : DB) :
    (ensure_seed_data db).project = (seedProjects (seedServices db)).project := rfl

theorem seedServices_project_length (db : DB) :
    (seedServices db).project.length = db.project.length := by
  rw [seedServices_project]

theorem ensure_seed_data_service_length_pos (db : DB) :
    (ensure_seed_data db).service.length ≠ 0 := by
  rw [ensure_seed_data_service]
  unfold seedServices
  by_cases h : db.service.length = 0
  · rw [if_pos h, insertServices_service_length, h]
    simp [default_services]
  · rw [if_neg h]
    exact h

theorem ensure_seed_data_project_length_pos (db : DB) :
    (ensure_seed_data db).project.length ≠ 0 := by
  unfold ensure_seed_data seedProjects
  by_cases h : (seedServices db).project.length = 0
  · rw [if_pos h, insertProjects_project_length, h]
    simp [default_projects]
  · rw [if_neg h]
    exact h

/-! Lemmas about the group, sort and label stages. -/

theorem sum_dedup_count {κ : Type} [DecidableEq κ] (m : List κ) :
    (m.dedup.map (fun k => m.countP (fun x => decide (x = k)))).sum = m.length := by
  have h0 : (fun k => m.countP (fun x => decide (x = k))) = fun k => m.count k := rfl
  rw [h0]
  have h : m.toFinset.sum (fun k => m.count k)
      = (m.dedup.map (fun k => m.count k)).sum := rfl
  rw [← h, List.sum_toFinset_count_eq_length]

theorem filter_key_length (l : List InteractionDoc) (k : Option String × IType) :
    (l.filter (fun i => decide (keyOf i = k))).length
      = (l.map keyOf).countP (fun x => decide (x = k)) := by
  rw [← List.countP_eq_length_filter, List.countP_map]
  rfl

theorem groupCounts_sum (l : List InteractionDoc) :
    ((groupCounts l).map (fun g => g.2)).sum = l.length := by
  unfold groupCounts
  rw [List.map_map]
  have h : ((l.map keyOf).dedup.map
      ((fun g : (Option String × IType) × Nat => g.2)
        ∘ (fun k => (k, (l.filter (fun i => decide (keyOf i = k))).length))))
      = (l.map keyOf).dedup.map
          (fun k => (l.map keyOf).countP (fun x => decide (x = k))) := by
    apply List.map_congr_left
    intro k _
    exact filter_key_length l k
  rw [h, sum_dedup_count, List.length_map]

theorem mem_groupCounts {l : List InteractionDoc} {g : (Option String × IType) × Nat}
    (hg : g ∈ groupCounts l) :
    (∃ i ∈ l, keyOf i = g.1)
    ∧ g.2 = (l.filter (fun i => decide (keyOf i = g.1))).length := by
  unfold groupCounts at hg
  rcases List.mem_map.mp hg with ⟨k, hk, hEq⟩
  have hk2 : k ∈ l.map keyOf := List.mem_dedup.mp hk
  rcases List.mem_map.mp hk2 with ⟨i, hi, hkey⟩
  cases hEq
  exact ⟨⟨i, hi, hkey⟩, rfl⟩

theorem mem_computeAnalytics {t : Option IType} {s : Option String} {db : DB}
    {r : AnalyticsRow} (hr : r ∈ computeAnalytics t s db) :
    ∃ g ∈ groupCounts (db.interaction.filter (matchPred t s)),
      r = labelRow (servicesMap db) g := by
  unfold computeAnalytics at hr
  rcases List.mem_map.mp hr with ⟨g, hg, hEq⟩
  exact ⟨g, (List.perm_insertionSort cntGE _).mem_iff.mp hg, hEq.symm⟩

theorem groupCounts_mem_computeAnalytics {t : Option IType} {s : Option String}
    {db : DB} {g : (Option String × IType) × Nat}
    (hg : g ∈ groupCounts (db.interaction.filter (matchPred t s))) :
    labelRow (servicesMap db) g ∈ computeAnalytics t s db := by
  unfold computeAnalytics
  exact List.mem_map_of_mem _ ((List.perm_insertionSort cntGE _).mem_iff.mpr hg)

theorem computeAnalytics_sum (t : Option IType) (s : Option String) (db : DB) :
    ((computeAnalytics t s db).map (fun r => r.count)).sum
      = (db.interaction.filter (matchPred t s)).length := by
  unfold computeAnalytics
  rw [List.map_map]
  have h : ((fun r : AnalyticsRow => r.count) ∘ labelRow (servicesMap db))
      = fun g : (Option String × IType) × Nat => g.2 := rfl
  rw [h, ((List.perm_insertionSort cntGE _).map (fun g => g.2)).sum_eq,
    groupCounts_sum]

theorem titleFor_of_some {smap : List (String × String)} {sid v : String}
    (h : dictGet smap sid = some v) : titleFor smap sid = v := by
  unfold titleFor
  rw [h]

theorem titleFor_of_none {smap : List (String × String)} {sid : String}
    (h : dictGet smap sid = none) :
    titleFor smap sid = if sid = "unknown" then "(General)" else "Unknown" := by
  unfold titleFor
  rw [h]

theorem dictGet_eq_none {m : List (String × String)} {k : String}
    (h : ∀ p ∈ m, p.1 ≠ k) : dictGet m k = none := by
  unfold dictGet
  rw [List.find?_eq_none.mpr]
  · rfl
  · intro p hp
    simpa using h p (List.mem_reverse.mp hp)

theorem dictGet_eq_some {m : List (String × String)}
    (hnd : (m.map Prod.fst).Nodup) {k v : String} (hmem : (k, v) ∈ m) :
    dictGet m k = some v := by
  induction m with
  | nil => cases hmem
  | cons p t ih =>
      rw [List.map_cons, List.nodup_cons] at hnd
      unfold dictGet
      rw [List.reverse_cons, List.find?_append]
      rcases List.mem_cons.mp hmem with hEq | hmem2
      · subst hEq
        have hnone : t.reverse.find? (fun q => q.1 == k) = none := by
          apply List.find?_eq_none.mpr
          intro q hq
          have hq2 : q.1 ∈ t.map Prod.fst :=
            List.mem_map_of_mem Prod.fst (List.mem_reverse.mp hq)
          have hne : q.1 ≠ k := fun hk => hnd.1 (hk ▸ hq2)
          simpa using hne
        rw [hnone]
        simp [List.find?]
      · have h2 := ih hnd.2 hmem2
        unfold dictGet at h2
        rcases Option.map_eq_some'.mp h2 with ⟨w, hw, hwv⟩
        rw [hw]
        simpa using hwv

/-- C2: for every stored collection of interactions, `computeAnalytics` with
no type filter and no service_id filter returns buckets whose counts sum
exactly to the total number of stored interactions. -/
theorem analytics_counts_total (db : DB) :
    ((computeAnalytics none none db).map (fun r => r.count)).sum
      = db.interaction.length := by
  rw [computeAnalytics_sum]
  have h : db.interaction.filter (matchPred none none) = db.interaction :=
    List.filter_eq_self.mpr (fun i _ => rfl)
  rw [h]

/-- C4: the sequence returned by `computeAnalytics` is ordered by count
descending: for every two buckets in the output, the earlier one has a count
at least that of the later one, so a bucket with a strictly greater count
than another appears earlier; ties are left in whatever order the sort
produced. -/
theorem analytics_sorted_by_count_desc (t : Option IType) (s : Option String) (db : DB) :
    (computeAnalytics t s db).Pairwise (fun a b => b.count ≤ a.count) := by
  unfold computeAnalytics
  exact List.Pairwise.map (labelRow (servicesMap db)) (fun a b h => h)
    (List.sorted_insertionSort cntGE _)

/-- C9: `list_services` and `list_projects` each trigger the seeder and then
return all documents of the respective collection (a permutation of the
seeded collection, so no filtering and no pagination) sorted lexicographically
by title in ascending order. -/
theorem list_catalog_seeded_sorted (db : DB) :
    (list_services db).2 = ensure_seed_data db
    ∧ (list_services db).1.Perm (ensure_seed_data db).service
    ∧ (list_services db).1.Pairwise svcLE
    ∧ (list_projects db).2 = ensure_seed_data db
    ∧ (list_projects db).1.Perm (ensure_seed_data db).project
    ∧ (list_projects db).1.Pairwise prjLE :=
  ⟨rfl, List.perm_insertionSort svcLE _, List.sorted_insertionSort svcLE _,
   rfl, List.perm_insertionSort prjLE _, List.sorted_insertionSort prjLE _⟩

/-- C1: for every bucket produced by the analytics aggregation (over a store
whose service identifiers are distinct and, like real ObjectId strings, never
the literal `"unknown"`): a key matching an existing Service resolves to
that Service's title; the `"unknown"` sentinel key resolves to the literal
`"(General)"`; a key matching no Service and distinct from the sentinel
resolves to the literal `"Unknown"`. -/
theorem analytics_label_correct (t : Option IType) (s : Option String) (db : DB)
    (r : AnalyticsRow) (hr : r ∈ computeAnalytics t s db)
    (hnd : (db.service.map (fun sv => sv.oid)).Nodup)
    (hu : ∀ sv ∈ db.service, sv.oid ≠ "unknown") :
    (∀ sv ∈ db.service, sv.oid = r.service_id → r.service_title = sv.title)
    ∧ (r.service_id = "unknown" → r.service_title = "(General)")
    ∧ ((∀ sv ∈ db.service, sv.oid ≠ r.service_id) → r.service_id ≠ "unknown" →
        r.service_title = "Unknown") := by
  rcases mem_computeAnalytics hr with ⟨g, _, hEq⟩
  subst hEq
  have hndm : ((servicesMap db).map Prod.fst).Nodup := by
    have h : (servicesMap db).map Prod.fst = db.service.map (fun sv => sv.oid) := by
      unfold servicesMap
      rw [List.map_map]
      rfl
    rw [h]
    exact hnd
  refine ⟨?_, ?_, ?_⟩
  · intro sv hsv hoid
    have hmem : (sv.oid, sv.title) ∈ servicesMap db :=
      List.mem_map_of_mem (fun x => (x.oid, x.title)) hsv
    have hoid2 : sv.oid = coalesceSid g.1.1 := hoid
    rw [hoid2] at hmem
    have hget : dictGet (servicesMap db) (coalesceSid g.1.1) = some sv.title :=
      dictGet_eq_some hndm hmem
    exact titleFor_of_some hget
  · intro hunk
    have hunk2 : coalesceSid g.1.1 = "unknown" := hunk
    have hget : dictGet (servicesMap db) (coalesceSid g.1.1) = none := by
      apply dictGet_eq_none
      intro p hp
      rcases List.mem_map.mp hp with ⟨sv, hsv, hpe⟩
      subst hpe
      rw [hunk2]
      exact hu sv hsv
    show titleFor (servicesMap db) (coalesceSid g.1.1) = "(General)"
    rw [titleFor_of_none hget, if_pos hunk2]
  · intro hnone hne
    have hne2 : coalesceSid g.1.1 ≠ "unknown" := hne
    have hget : dictGet (servicesMap db) (coalesceSid g.1.1) = none := by
      apply dictGet_eq_none
      intro p hp
      rcases List.mem_map.mp hp with ⟨sv, hsv, hpe⟩
      subst hpe
      exact hnone sv hsv
    show titleFor (servicesMap db) (coalesceSid g.1.1) = "Unknown"
    rw [titleFor_of_none hget, if_neg hne2]

/-- Witness for C1: in the sample store `dbW`, the row counting the two
views of service `"id0"` is in the analytics output, the hypotheses hold,
and the three labeling cases follow by applying the theorem. -/
theorem analytics_label_correct_witness :
    (dbW.service.map (fun sv => sv.oid)).Nodup
    ∧ (∀ sv ∈ dbW.service, sv.oid ≠ "unknown")
    ∧ rowW ∈ computeAnalytics none none dbW
    ∧ ((∀ sv ∈ dbW.service, sv.oid = rowW.service_id → rowW.service_title = sv.title)
       ∧ (rowW.service_id = "unknown" → rowW.service_title = "(General)")
       ∧ ((∀ sv ∈ dbW.service, sv.oid ≠ rowW.service_id) → rowW.service_id ≠ "unknown" →
           rowW.service_title = "Unknown")) :=
  ⟨by decide, by decide, by decide,
   analytics_label_correct none none dbW rowW (by decide) (by decide) (by decide)⟩

/-- C3 counterexample: the claim that a given `service_id` filter always
restricts the counted interactions to those equal to it by string equality is
false: in `dbW` (six interactions, only one with `service_id = ""`), filtering
by the empty string counts all six interactions, because the handler installs
the filter only when the parameter is truthy. -/
theorem analytics_service_filter_claim_false :
    ¬ (∀ (db : DB) (s : String),
        ((computeAnalytics none (some s) db).map (fun r => r.count)).sum
          = (db.interaction.filter (fun i => decide (i.service_id = some s))).length) := by
  intro h
  exact absurd (h dbW "") (by decide)

/-- C3 (amended): the filter stage is a logical AND of the optional
parameters, except that an empty-string `service_id` parameter is falsy in
Python and imposes no constraint.  For any non-empty `service_id` filter and
any `type` filter: every returned bucket carries the filtered type and
service identifier, and the counts sum to the number of stored interactions
satisfying the conjunction of the given equality conditions. -/
theorem analytics_filter_and (t : Option IType) (s : Option String) (db : DB)
    (hs : s ≠ some "") :
    (∀ r ∈ computeAnalytics t s db,
        (∀ t0, t = some t0 → r.type = t0) ∧ (∀ s0, s = some s0 → r.service_id = s0))
    ∧ ((computeAnalytics t s db).map (fun r => r.count)).sum
        = (db.interaction.filter (fun i =>
            (match t with
              | none => true
              | some t0 => decide (i.type = t0))
            && (match s with
              | none => true
              | some s0 => decide (i.service_id = some s0)))).length := by
  constructor
  · intro r hr
    rcases mem_computeAnalytics hr with ⟨g, hg, hEq⟩
    rcases (mem_groupCounts hg).1 with ⟨i, hi, hkey⟩
    have hi2 := List.mem_filter.mp hi
    have hmp := hi2.2
    unfold matchPred at hmp
    rw [Bool.and_eq_true] at hmp
    subst hEq
    constructor
    · intro t0 ht
      subst ht
      have htype : i.type = t0 := by simpa using hmp.1
      show g.1.2 = t0
      rw [← hkey]
      exact htype
    · intro s0 hss
      subst hss
      have hs0 : s0 ≠ "" := by
        intro h0
        exact hs (by rw [h0])
      have h2 : (if s0 = "" then true else decide (i.service_id = some s0)) = true := hmp.2
      rw [if_neg hs0] at h2
      have h3 : i.service_id = some s0 := by simpa using h2
      show coalesceSid g.1.1 = s0
      rw [← hkey]
      show coalesceSid i.service_id = s0
      rw [h3]
      show (if s0 = "" then "unknown" else s0) = s0
      rw [if_neg hs0]
  · rw [computeAnalytics_sum]
    congr 1
    apply List.filter_congr
    intro i _
    unfold matchPred
    cases s with
    | none => rfl
    | some s0 =>
        have hs0 : s0 ≠ "" := by
          intro h0
          exact hs (by rw [h0])
        show ((match t with
            | none => true
            | some t0 => decide (i.type = t0))
          && (if s0 = "" then true else decide (i.service_id = some s0)))
          = ((match t with
            | none => true
            | some t0 => decide (i.type = t0))
          && decide (i.service_id = some s0))
        rw [if_neg hs0]

/-- Witness for C3 (amended): filtering `dbW` by type `view` and service
`"id0"` satisfies the non-empty-filter hypothesis, and the theorem gives the
purity of every returned bucket and the exact count sum. -/
theorem analytics_filter_and_witness :
    (some "id0" : Option String) ≠ some ""
    ∧ ((∀ r ∈ computeAnalytics (some IType.view) (some "id0") dbW,
          (∀ t0, some IType.view = some t0 → r.type = t0)
          ∧ (∀ s0, (some "id0" : Option String) = some s0 → r.service_id = s0))
       ∧ ((computeAnalytics (some IType.view) (some "id0") dbW).map (fun r => r.count)).sum
           = (dbW.interaction.filter (fun i =>
               decide (i.type = IType.view) && decide (i.service_id = some "id0"))).length) :=
  ⟨by decide, analytics_filter_and (some IType.view) (some "id0") dbW (by decide)⟩

/-- C5 counterexample: with the store unavailable during the seeding step of
a `GET /api/services` request but available afterwards, the seeding step
raises and the request itself fails, so the error raised during seeding was
not caught and discarded. -/
theorem seeding_error_fails_request :
    ensure_seed_dataE false emptyDB = Except.error ()
    ∧ list_servicesE false true emptyDB = Except.error () :=
  ⟨rfl, rfl⟩

/-- C5 (amended): store errors during seeding are caught and discarded only
in the startup hook, which leaves the store as it was; the request handlers
(listing services, recording a valid interaction) call the seeder with no
exception handler, so a store failure during the seeding step fails the
request even when the store is available for the handler's own operations. -/
theorem seeding_error_swallowed_only_at_startup (db : DB) (r : RawInteraction)
    (p : InteractionData) (hp : parseInteraction r = Except.ok p) :
    on_startup false db = db
    ∧ list_servicesE false true db = Except.error ()
    ∧ track_interactionE false true r db = Except.error () := by
  refine ⟨rfl, rfl, ?_⟩
  unfold track_interactionE
  rw [hp]
  rfl

/-- Witness for C5 (amended): the valid payload `rGood` parses, and applying
the theorem at the empty store gives the three behaviours. -/
theorem seeding_error_swallowed_only_at_startup_witness :
    parseInteraction rGood = Except.ok pGood
    ∧ (on_startup false emptyDB = emptyDB
       ∧ list_servicesE false true emptyDB = Except.error ()
       ∧ track_interactionE false true rGood emptyDB = Except.error ()) :=
  ⟨by decide, seeding_error_swallowed_only_at_startup emptyDB rGood pGood (by decide)⟩

/-- C6 counterexample: a `type` query value outside the enum is rejected
with HTTP status 422 (the framework's request-validation status), not 400. -/
theorem analytics_invalid_type_status_not_400 :
    analytics (some "click") none emptyDB = Except.error 422
    ∧ analytics (some "click") none emptyDB ≠ Except.error 400 :=
  ⟨by decide, by decide⟩

/-- C6 (amended): for every value of the analytics `type` query parameter
outside the two-member enum, the request is rejected with HTTP status 422 by
validation before any store operation is performed: the response is the same
for every store state. -/
theorem analytics_invalid_type_rejected_422 (s : String) (sid : Option String)
    (db db2 : DB) (h1 : s ≠ "view") (h2 : s ≠ "order") :
    analytics (some s) sid db = Except.error 422
    ∧ analytics (some s) sid db = analytics (some s) sid db2 := by
  have hp : parseTypeParam (some s) = Except.error 422 := by
    show (if s = "view" then Except.ok (some IType.view)
        else if s = "order" then Except.ok (some IType.order)
        else (Except.error 422 : Except Nat (Option IType)))
      = Except.error 422
    rw [if_neg h1, if_neg h2]
  unfold analytics
  rw [hp]
  exact ⟨rfl, rfl⟩

/-- Witness for C6 (amended): the value `"click"` is outside the enum, and
the theorem applied at two different stores gives the store-independent 422
rejection. -/
theorem analytics_invalid_type_rejected_422_witness :
    ("click" ≠ "view") ∧ ("click" ≠ "order")
    ∧ (analytics (some "click") none emptyDB = Except.error 422
       ∧ analytics (some "click") none emptyDB = analytics (some "click") none dbW) :=
  ⟨by decide, by decide,
   analytics_invalid_type_rejected_422 "click" none emptyDB dbW (by decide) (by decide)⟩

/-- C7: an interaction payload with a missing required field (`user_id` or
`type`) or a `type` outside the enum is rejected as a validation error and
the store is unchanged, so no document is inserted into the interaction
collection; a payload that validates leads to exactly one document appended
to the interaction collection, whose assigned identifier is returned. -/
theorem track_interaction_validation (r : RawInteraction) (db : DB) :
    ((r.user_id = none ∨ r.typeField = none
        ∨ (∀ t, r.typeField = some t → t ≠ "view" ∧ t ≠ "order")) →
      track_interaction r db = (Except.error 422, db))
    ∧ (∀ p, parseInteraction r = Except.ok p →
        ∃ d : InteractionDoc,
          (track_interaction r db).2.interaction = db.interaction ++ [d]
          ∧ (track_interaction r db).1 = Except.ok d.oid
          ∧ d.toInteractionData = p) := by
  constructor
  · intro h
    have hp : parseInteraction r = Except.error 422 := by
      unfold parseInteraction
      rcases h with h | h | h
      · rw [h]
      · rw [h]
        cases r.user_id <;> rfl
      · cases hu : r.user_id with
        | none => rfl
        | some u =>
            cases ht : r.typeField with
            | none => rfl
            | some t =>
                have hvo := h t ht
                show (if t = "view" then
                    Except.ok { user_id := u, service_id := r.service_id,
                                type := IType.view, details := r.details }
                  else if t = "order" then
                    Except.ok { user_id := u, service_id := r.service_id,
                                type := IType.order, details := r.details }
                  else (Except.error 422 : Except Nat InteractionData))
                  = Except.error 422
                rw [if_neg hvo.1, if_neg hvo.2]
    unfold track_interaction
    rw [hp]
  · intro p hp
    refine ⟨{ toInteractionData := p, oid := freshOid (ensure_seed_data db).nextId },
      ?_, ?_, rfl⟩
    · show (track_interaction r db).2.interaction = _
      unfold track_interaction
      rw [hp]
      show ((ensure_seed_data db).insertInteraction p).2.interaction = _
      show (ensure_seed_data db).interaction
          ++ [{ toInteractionData := p, oid := freshOid (ensure_seed_data db).nextId }]
        = _
      rw [ensure_seed_data_interaction]
    · unfold track_interaction
      rw [hp]
      rfl

/-- Witness for C7: the invalid payload `rBad` is rejected with the store
unchanged, and the valid payload `rGood` leads to exactly one appended
interaction document whose identifier is returned. -/
theorem track_interaction_validation_witness :
    track_interaction rBad emptyDB = (Except.error 422, emptyDB)
    ∧ ∃ d : InteractionDoc,
        (track_interaction rGood emptyDB).2.interaction = emptyDB.interaction ++ [d]
        ∧ (track_interaction rGood emptyDB).1 = Except.ok d.oid
        ∧ d.toInteractionData = pGood :=
  ⟨(track_interaction_validation rBad emptyDB).1
      (Or.inr (Or.inr (fun t ht => by
        injection ht with hv
        subst hv
        exact ⟨by decide, by decide⟩))),
   (track_interaction_validation rGood emptyDB).2 pGood (by decide)⟩

/-- C8: the seeder is idempotent: an empty reference collection receives the
fixed default records (4 services, 3 projects) in index order, a non-empty
one is left untouched, and running the seeder twice in sequence gives the
same store as running it once. -/
theorem seeder_idempotent (db : DB) :
    (db.service.length = 0 →
        (ensure_seed_data db).service.map (fun s => s.toServiceData) = default_services)
    ∧ (db.service.length ≠ 0 → (ensure_seed_data db).service = db.service)
    ∧ (db.project.length = 0 →
        (ensure_seed_data db).project.map (fun p => p.toProjectData) = default_projects)
    ∧ (db.project.length ≠ 0 → (ensure_seed_data db).project = db.project)
    ∧ ensure_seed_data (ensure_seed_data db) = ensure_seed_data db := by
  refine ⟨?_, ?_, ?_, ?_, ?_⟩
  · intro h
    rw [ensure_seed_data_service]
    unfold seedServices
    rw [if_pos h, insertServices_service_data, List.length_eq_zero.mp h]
    rfl
  · intro h
    rw [ensure_seed_data_service]
    unfold seedServices
    rw [if_neg h]
  · intro h
    show (seedProjects (seedServices db)).project.map _ = _
    unfold seedProjects
    have h2 : (seedServices db).project.length = 0 := by
      rw [seedServices_project]
      exact h
    rw [if_pos h2, insertProjects_project_data, seedServices_project,
      List.length_eq_zero.mp h]
    rfl
  · intro h
    show (seedProjects (seedServices db)).project = _
    unfold seedProjects
    have h2 : ¬ (seedServices db).project.length = 0 := by
      rw [seedServices_project]
      exact h
    rw [if_neg h2, seedServices_project]
  · have hsv := ensure_seed_data_service_length_pos db
    have hpj := ensure_seed_data_project_length_pos db
    show seedProjects (seedServices (ensure_seed_data db)) = ensure_seed_data db
    have h1 : seedServices (ensure_seed_data db) = ensure_seed_data db := by
      unfold seedServices
      rw [if_neg hsv]
    rw [h1]
    unfold seedProjects
    rw [if_neg hpj]

/-- Witness for C8: seeding the empty store inserts exactly the default
records, a store with a non-empty service collection keeps it, and seeding
twice equals seeding once. -/
theorem seeder_idempotent_witness :
    emptyDB.service.length = 0
    ∧ (ensure_seed_data emptyDB).service.map (fun s => s.toServiceData) = default_services
    ∧ dbW.service.length ≠ 0
    ∧ (ensure_seed_data dbW).service = dbW.service
    ∧ ensure_seed_data (ensure_seed_data emptyDB) = ensure_seed_data emptyDB :=
  ⟨rfl, (seeder_idempotent emptyDB).1 rfl, by decide,
   (seeder_idempotent dbW).2.1 (by decide), (seeder_idempotent emptyDB).2.2.2.2⟩

/-- C10: every aggregation bucket whose group key carries a falsy
`service_id` — absent or the empty string, which the Interaction schema
accepts — is labelled with the sentinel: its output record has `service_id`
equal to the literal `"unknown"` and `service_title` equal to `"(General)"`,
and is identical to the record a bucket of interactions with no `service_id`
at all would produce. -/
theorem analytics_falsy_sid_sentinel (t : Option IType) (s : Option String) (db : DB)
    (g : (Option String × IType) × Nat)
    (hu : ∀ sv ∈ db.service, sv.oid ≠ "unknown")
    (hg : g ∈ groupCounts (db.interaction.filter (matchPred t s)))
    (hfalsy : g.1.1 = none ∨ g.1.1 = some "") :
    labelRow (servicesMap db) g ∈ computeAnalytics t s db
    ∧ (labelRow (servicesMap db) g).service_id = "unknown"
    ∧ (labelRow (servicesMap db) g).service_title = "(General)"
    ∧ labelRow (servicesMap db) g = labelRow (servicesMap db) ((none, g.1.2), g.2) := by
  have hsid : coalesceSid g.1.1 = "unknown" := by
    rcases hfalsy with h | h <;> rw [h] <;> rfl
  have hget : dictGet (servicesMap db) (coalesceSid g.1.1) = none := by
    apply dictGet_eq_none
    intro p hp
    rcases List.mem_map.mp hp with ⟨sv, hsv, hpe⟩
    subst hpe
    rw [hsid]
    exact hu sv hsv
  refine ⟨groupCounts_mem_computeAnalytics hg, hsid, ?_, ?_⟩
  · show titleFor (servicesMap db) (coalesceSid g.1.1) = "(General)"
    rw [titleFor_of_none hget, if_pos hsid]
  · show labelRow (servicesMap db) g = _
    unfold labelRow
    rw [hsid]
    rfl

/-- Witness for C10: in `dbW` the empty-string view bucket is labelled with
`service_id "unknown"` and title `"(General)"`, identically to an absent
`service_id` bucket of the same type and count. -/
theorem analytics_falsy_sid_sentinel_witness :
    (∀ sv ∈ dbW.service, sv.oid ≠ "unknown")
    ∧ gW ∈ groupCounts (dbW.interaction.filter (matchPred none none))
    ∧ (gW.1.1 = none ∨ gW.1.1 = some "")
    ∧ (labelRow (servicesMap dbW) gW ∈ computeAnalytics none none dbW
       ∧ (labelRow (servicesMap dbW) gW).service_id = "unknown"
       ∧ (labelRow (servicesMap dbW) gW).service_title = "(General)"
       ∧ labelRow (servicesMap dbW) gW = labelRow (servicesMap dbW) ((none, gW.1.2), gW.2)) :=
  ⟨by decide, by decide, by decide,
   analytics_falsy_sid_sentinel none none dbW gW (by decide) (by decide) (by decide)⟩

end SomDev
